import Mathlib

/-!
Shallow embedding of the valuation engine in `valuation.py`.

The script computes intrinsic per-share values under five models
(DCF, DDM, RIM, Relative P/E, Asset-Based).  Each Streamlit button
handler is embedded as a pure function over `ℚ` (the script's float
arithmetic modelled exactly).  The `st.error`/`st.stop` validation
paths and Python's raised `ZeroDivisionError` are both modelled as
`Except` error values, with distinct constructors so that a structured
validation message and an uncaught exception stay distinguishable.
-/

/-- Failure outcomes of an evaluation.  `invalidShares` and
`invalidRateRelation` model the script's `st.error` validation
messages; `zeroDivisionError` models an uncaught Python
`ZeroDivisionError` raised by a division whose denominator is 0. -/
inductive EvalError where
  | invalidShares
  | invalidRateRelation
  | zeroDivisionError
deriving DecidableEq, Repr

/-- Inputs of the DCF branch (`valuation.py` lines 47-64), field names
as in the script: operating cash for the present and two prior years,
capital expenditure likewise, the four percentage rates (near-term
growth `gr`, years 6-10 growth `gr1`, terminal growth `tr`, discount
`dr`), total debt `dv`, cash equivalents `cb`, outstanding shares `os`. -/
structure DcfInputs where
  opc : ℚ
  opc1 : ℚ
  opc2 : ℚ
  ope : ℚ
  ope1 : ℚ
  ope2 : ℚ
  gr : ℚ
  gr1 : ℚ
  tr : ℚ
  dr : ℚ
  dv : ℚ
  cb : ℚ
  os : ℚ
deriving DecidableEq, Repr

/-- Result record of the DCF branch (`valuation.py` lines 92-95). -/
structure DcfResult where
  shareprice : ℚ
  uppershareprice : ℚ
  lowershareprice : ℚ
  marginofsafetyprice : ℚ
deriving DecidableEq, Repr

/-- `free_cash_flows = [(opc - ope), (opc1 - ope1), (opc2 - ope2)]`
(line 74). -/
def free_cash_flows (inp : DcfInputs) : List ℚ :=
  [inp.opc - inp.ope, inp.opc1 - inp.ope1, inp.opc2 - inp.ope2]

/-- `cashflow = sum(free_cash_flows) / len(free_cash_flows)` (line 75);
the list has length 3. -/
def cashflow (inp : DcfInputs) : ℚ :=
  (free_cash_flows inp).sum / 3

/-- `FV = [cashflow * ((1 + grp) ** i) if i < 5 else
cashflow * ((1 + grp) ** 5) * ((1 + grp1) ** (i - 5))
for i in range(10)]` (line 82), with `grp = gr / 100`,
`grp1 = gr1 / 100` (lines 77-78). -/
def FV (inp : DcfInputs) : List ℚ :=
  (List.range 10).map (fun i =>
    if i < 5 then cashflow inp * (1 + inp.gr / 100) ^ i
    else cashflow inp * (1 + inp.gr / 100) ^ 5 * (1 + inp.gr1 / 100) ^ (i - 5))

/-- `PV = [FV[i] / ((1 + drp) ** (i + 1)) for i in range(10)]`
(line 83), with `drp = dr / 100` (line 80). -/
def PV (inp : DcfInputs) : List ℚ :=
  (List.range 10).map (fun i => (FV inp).getD i 0 / (1 + inp.dr / 100) ^ (i + 1))

/-- `terminalvalue = FV[-1] * (1 + trp) / (drp - trp)` (line 85),
with `trp = tr / 100` (line 79); `FV[-1]` is the last element. -/
def terminalvalue (inp : DcfInputs) : ℚ :=
  (FV inp).getLastD 0 * (1 + inp.tr / 100) / (inp.dr / 100 - inp.tr / 100)

/-- `pvtv = terminalvalue / ((1 + drp) ** 10)` (line 86). -/
def pvtv (inp : DcfInputs) : ℚ :=
  terminalvalue inp / (1 + inp.dr / 100) ^ 10

/-- `sumofpresentvalues = sum(PV) + pvtv` (line 88). -/
def sumofpresentvalues (inp : DcfInputs) : ℚ :=
  (PV inp).sum + pvtv inp

/-- `netdebt = dv - cb` (line 89). -/
def netdebt (inp : DcfInputs) : ℚ :=
  inp.dv - inp.cb

/-- `totalpresentvalue = sumofpresentvalues - netdebt` (line 90). -/
def totalpresentvalue (inp : DcfInputs) : ℚ :=
  sumofpresentvalues inp - netdebt inp

/-- `shareprice = totalpresentvalue / os` (line 92). -/
def shareprice (inp : DcfInputs) : ℚ :=
  totalpresentvalue inp / inp.os

/-- The DCF button handler (`valuation.py` lines 66-95).  Validation
first: `os <= 0` stops with the invalid-shares message, then `dr <= tr`
stops with the rate-relation message.  After validation the script
computes `PV`, dividing by `(1 + drp) ** (i + 1)`: when `1 + dr/100 = 0`
(i.e. `dr = -100`, which validation does not exclude) Python raises
`ZeroDivisionError` there, modelled by the third branch.  All remaining
denominators are nonzero: `drp - trp > 0` by validation and `os > 0`. -/
def computeDcf (inp : DcfInputs) : Except EvalError DcfResult :=
  if inp.os ≤ 0 then .error .invalidShares
  else if inp.dr ≤ inp.tr then .error .invalidRateRelation
  else if (1 + inp.dr / 100 : ℚ) = 0 then .error .zeroDivisionError
  else .ok ⟨shareprice inp, shareprice inp * 1.1,
            shareprice inp * 0.9, shareprice inp * 0.9 * 0.7⟩

/-- Inputs of the DDM branch (`valuation.py` lines 108-110): expected
dividend next year `D1`, dividend growth rate `g` (%), required rate of
return `r` (%). -/
structure DdmInputs where
  D1 : ℚ
  g : ℚ
  r : ℚ
deriving DecidableEq, Repr

/-- The DDM button handler (`valuation.py` lines 112-117): if `r <= g`
the script shows the rate-relation error, otherwise
`intrinsic_value = D1 / ((r - g) / 100)`. -/
def computeDdm (inp : DdmInputs) : Except EvalError ℚ :=
  if inp.r ≤ inp.g then .error .invalidRateRelation
  else .ok (inp.D1 / ((inp.r - inp.g) / 100))

/-- Inputs of the RIM branch (`valuation.py` lines 124-130): book value
per share, net income per share, risk-free rate (%), beta, expected
market return (%). -/
structure RimInputs where
  book_value : ℚ
  net_income : ℚ
  rf : ℚ
  beta : ℚ
  market_return : ℚ
deriving DecidableEq, Repr

/-- Result of the RIM branch: computed cost of equity (%) and intrinsic
value (`valuation.py` lines 138-139). -/
structure RimResult where
  cost_of_equity : ℚ
  intrinsic_value : ℚ
deriving DecidableEq, Repr

/-- `cost_of_equity = rf + beta * (market_return - rf)` (line 133). -/
def cost_of_equity (inp : RimInputs) : ℚ :=
  inp.rf + inp.beta * (inp.market_return - inp.rf)

/-- The RIM button handler (`valuation.py` lines 132-139): no
validation; `equity_charge = book_value * (cost_of_equity / 100)`,
`RI = net_income - equity_charge`,
`intrinsic_value = book_value + RI / (cost_of_equity / 100)`.  When
`cost_of_equity = 0` the final division raises `ZeroDivisionError`,
modelled as the error branch. -/
def computeRim (inp : RimInputs) : Except EvalError RimResult :=
  let coe := cost_of_equity inp
  if coe = 0 then .error .zeroDivisionError
  else
    let equity_charge := inp.book_value * (coe / 100)
    let RI := inp.net_income - equity_charge
    .ok ⟨coe, inp.book_value + RI / (coe / 100)⟩

/-- Inputs of the Relative branch (`valuation.py` lines 146-147):
industry P/E ratio and company EPS. -/
structure RelativeInputs where
  industry_pe : ℚ
  eps : ℚ
deriving DecidableEq, Repr

/-- The Relative button handler (`valuation.py` lines 149-151):
`relative_value = industry_pe * eps`, no validation and no division,
so no failure path exists. -/
def computeRelative (inp : RelativeInputs) : Except EvalError ℚ :=
  .ok (inp.industry_pe * inp.eps)

/-- Inputs of the Asset-Based branch (`valuation.py` lines 158-160):
total assets, total liabilities, shares outstanding. -/
structure AssetInputs where
  total_assets : ℚ
  total_liabilities : ℚ
  shares_outstanding : ℚ
deriving DecidableEq, Repr

/-- The Asset-Based button handler (`valuation.py` lines 162-164):
`nav = (total_assets - total_liabilities) / shares_outstanding` with
no validation at all; when `shares_outstanding = 0` the division raises
`ZeroDivisionError`, modelled as the error branch. -/
def computeAssetBased (inp : AssetInputs) : Except EvalError ℚ :=
  if inp.shares_outstanding = 0 then .error .zeroDivisionError
  else .ok ((inp.total_assets - inp.total_liabilities) / inp.shares_outstanding)

/-- The `i`-th projected forward cash flow in the 1-based year
numbering used by the spec (year `i` is the flow discounted `i`
periods, i.e. list entry `i - 1` of `FV`, since
`PV[i] = FV[i] / (1 + drp) ** (i + 1)`). -/
def fvYear (inp : DcfInputs) (i : ℕ) : ℚ :=
  (FV inp).getD (i - 1) 0

/-- Spec-side share-price formula, written from the words of claim C2:
the sum over years 1..10 of the year-`i` projected flow discounted `i`
periods, plus the terminal value (year-10 flow × (1 + terminal rate) ÷
(discount − terminal rate)) discounted 10 periods, minus net debt, all
divided by outstanding shares.  Compared against the script's
`shareprice` below. -/
def specSharePrice (inp : DcfInputs) : ℚ :=
  ((∑ i ∈ Finset.Icc 1 10, fvYear inp i / (1 + inp.dr / 100) ^ i) +
      (fvYear inp 10 * (1 + inp.tr / 100) / (inp.dr / 100 - inp.tr / 100)) /
        (1 + inp.dr / 100) ^ 10 -
      (inp.dv - inp.cb)) / inp.os

/-- Rounding to two decimal places, as applied by the script's display
format `:.2f` (line 139).  Python formats with round-half-to-even;
`round2` rounds half up, which agrees with it at every non-tie value,
in particular at the value it is applied to below. -/
def round2 (x : ℚ) : ℚ := (⌊x * 100 + 1 / 2⌋ : ℚ) / 100

/-- Unfolding of the `FV` list comprehension (line 82) into its ten
entries: list position `j` carries growth exponent `j` for `j < 5`
(so the first entry is the ungrown base, exponent 0) and
`(1 + grp) ^ 5 * (1 + grp1) ^ (j - 5)` for `j ≥ 5`. -/
theorem FV_eq (inp : DcfInputs) :
    FV inp =
      [cashflow inp * (1 + inp.gr / 100) ^ 0,
       cashflow inp * (1 + inp.gr / 100) ^ 1,
       cashflow inp * (1 + inp.gr / 100) ^ 2,
       cashflow inp * (1 + inp.gr / 100) ^ 3,
       cashflow inp * (1 + inp.gr / 100) ^ 4,
       cashflow inp * (1 + inp.gr / 100) ^ 5 * (1 + inp.gr1 / 100) ^ 0,
       cashflow inp * (1 + inp.gr / 100) ^ 5 * (1 + inp.gr1 / 100) ^ 1,
       cashflow inp * (1 + inp.gr / 100) ^ 5 * (1 + inp.gr1 / 100) ^ 2,
       cashflow inp * (1 + inp.gr / 100) ^ 5 * (1 + inp.gr1 / 100) ^ 3,
       cashflow inp * (1 + inp.gr / 100) ^ 5 * (1 + inp.gr1 / 100) ^ 4] := by
  simp [FV, List.range_succ]

/-- The script's `shareprice` coincides with the spec-side formula
`specSharePrice`: the 0-based `PV` comprehension discounts list entry
`i` by `i + 1` periods, which is exactly the 1-based "year `i`
discounted `i` periods" reading, and `FV[-1]` is the year-10 flow. -/
theorem shareprice_eq_spec (inp : DcfInputs) : shareprice inp = specSharePrice inp := by
  have hIcc : (Finset.Icc 1 10 : Finset ℕ) = {1, 2, 3, 4, 5, 6, 7, 8, 9, 10} := rfl
  simp [shareprice, specSharePrice, totalpresentvalue, sumofpresentvalues, PV, pvtv,
    terminalvalue, netdebt, fvYear, FV_eq, hIcc, Finset.sum_insert, List.range_succ]

/-- C1 counterexample: the input (all flows averaging to base 3,
near-term growth 100%, long-term 0%, terminal 0%, discount 50%,
shares 1) passes validation — the evaluation succeeds, returning the
record computed by the script — yet the year-1 projected flow (the one
discounted one period) is `base = 3`, not
`base * (1 + nearTerm) ^ 1 = 6` as the claim requires: the code's
comprehension uses exponent `i` at 0-based position `i`, so the
1-based year `i` carries exponent `i - 1`. -/
theorem C1_counterexample :
    computeDcf ⟨3, 3, 3, 0, 0, 0, 100, 0, 0, 50, 0, 0, 1⟩ =
      .ok ⟨3610 / 81, 3971 / 81, 361 / 9, 2527 / 90⟩ ∧
    fvYear ⟨3, 3, 3, 0, 0, 0, 100, 0, 0, 50, 0, 0, 1⟩ 1 ≠
      cashflow ⟨3, 3, 3, 0, 0, 0, 100, 0, 0, 50, 0, 0, 1⟩ *
        (1 + (100 : ℚ) / 100) ^ 1 := by
  constructor
  · norm_num [computeDcf, shareprice, totalpresentvalue, sumofpresentvalues, PV, pvtv,
      terminalvalue, netdebt, FV, cashflow, free_cash_flows, List.range_succ]
  · norm_num [fvYear, FV_eq, cashflow, free_cash_flows]

/-- C1 (amended): for every DCF input passing validation, the year-`i`
projected flow equals `base * (1 + nearTerm) ^ (i - 1)` for years 1..5
and `base * (1 + nearTerm) ^ 5 * (1 + longTerm) ^ (i - 6)` for years
6..10 — one growth step fewer per phase than the claim states. -/
theorem C1_dcf_projection_amended (inp : DcfInputs) (i : ℕ)
    (hos : 0 < inp.os) (hrt : inp.tr < inp.dr) (h1 : 1 ≤ i) (h10 : i ≤ 10) :
    fvYear inp i =
      if i ≤ 5 then cashflow inp * (1 + inp.gr / 100) ^ (i - 1)
      else cashflow inp * (1 + inp.gr / 100) ^ 5 * (1 + inp.gr1 / 100) ^ (i - 6) := by
  interval_cases i <;> simp [fvYear, FV_eq]

/-- C1 witness: at the counterexample input, year 6 evaluates to
`3 * 2 ^ 5 * 1 ^ 0 = 96`. -/
theorem C1_witness :
    fvYear ⟨3, 3, 3, 0, 0, 0, 100, 0, 0, 50, 0, 0, 1⟩ 6 = 96 := by
  have h := C1_dcf_projection_amended ⟨3, 3, 3, 0, 0, 0, 100, 0, 0, 50, 0, 0, 1⟩ 6
    (by norm_num) (by norm_num) (by norm_num) (by norm_num)
  norm_num [cashflow, free_cash_flows] at h
  exact h

/-- C2 counterexample: with discount rate −100% and terminal rate
−150% the input passes both validation checks (`os = 1 > 0`,
`dr = -100 > -150 = tr`), but the `PV` comprehension divides by
`(1 + (-100)/100) ** (i+1) = 0` and Python raises `ZeroDivisionError`:
no intrinsic share price is produced, so the claim's equation has no
subject at this validated input. -/
theorem C2_counterexample :
    computeDcf ⟨0, 0, 0, 0, 0, 0, 0, 0, -150, -100, 0, 0, 1⟩ =
      .error .zeroDivisionError := by
  norm_num [computeDcf]

/-- C2 (amended): for every DCF input passing validation whose
discount rate is not −100% (so the per-period discount factor is
nonzero), the evaluation succeeds and the intrinsic share price equals
the claimed formula: the sum of the ten projected flows each
discounted by its 1-based year index, plus the terminal value
`FV_10 * (1 + terminalRate) / (discountRate - terminalRate)` discounted
ten periods, minus net debt, divided by outstanding shares. -/
theorem C2_shareprice_amended (inp : DcfInputs)
    (hos : 0 < inp.os) (hrt : inp.tr < inp.dr) (hdr : (1 : ℚ) + inp.dr / 100 ≠ 0) :
    ∃ r : DcfResult, computeDcf inp = .ok r ∧ r.shareprice = specSharePrice inp := by
  refine ⟨⟨shareprice inp, shareprice inp * 1.1, shareprice inp * 0.9,
    shareprice inp * 0.9 * 0.7⟩, ?_, shareprice_eq_spec inp⟩
  rw [computeDcf, if_neg (by linarith), if_neg (by linarith), if_neg hdr]

/-- C2 witness: the spec's end-to-end scenario (all operating cash
100, all capital expenditure 20, rates 10/5/3/10, debt 50, cash 20,
shares 10) succeeds and its price matches the claimed formula. -/
theorem C2_witness :
    ∃ r : DcfResult,
      computeDcf ⟨100, 100, 100, 20, 20, 20, 10, 5, 3, 10, 50, 20, 10⟩ = .ok r ∧
        r.shareprice = specSharePrice ⟨100, 100, 100, 20, 20, 20, 10, 5, 3, 10, 50, 20, 10⟩ :=
  C2_shareprice_amended ⟨100, 100, 100, 20, 20, 20, 10, 5, 3, 10, 50, 20, 10⟩
    (by norm_num) (by norm_num) (by norm_num)

/-- C3 counterexample: the Asset-Based branch has no shares
validation.  With shares outstanding −10 the evaluation *succeeds*
with the numeric NAV −6 instead of failing with `InvalidShares`; and
with shares 0 it raises `ZeroDivisionError` (modelled as
`zeroDivisionError`), which is not the structured `InvalidShares`
failure the claim requires. -/
theorem C3_counterexample :
    computeAssetBased ⟨100, 40, -10⟩ = .ok (-6) ∧
      computeAssetBased ⟨100, 40, 0⟩ ≠ .error .invalidShares := by
  constructor
  · norm_num [computeAssetBased]
  · norm_num [computeAssetBased]
    decide

/-- C3 (amended): the Asset-Based evaluator performs no validation.
For every input with shares outstanding ≠ 0 (including negative
values) it returns `(totalAssets - totalLiabilities) / sharesOutstanding`;
for shares outstanding = 0 the division raises `ZeroDivisionError`. -/
theorem C3_nav_amended (inp : AssetInputs) :
    (inp.shares_outstanding ≠ 0 →
      computeAssetBased inp =
        .ok ((inp.total_assets - inp.total_liabilities) / inp.shares_outstanding)) ∧
    (inp.shares_outstanding = 0 →
      computeAssetBased inp = .error .zeroDivisionError) := by
  constructor <;> intro h <;> simp [computeAssetBased, h]

/-- C3 witness: assets 100, liabilities 40, shares 10 yields NAV 6. -/
theorem C3_witness : computeAssetBased ⟨100, 40, 10⟩ = .ok 6 := by
  have h := (C3_nav_amended ⟨100, 40, 10⟩).1 (by norm_num)
  norm_num at h
  exact h

/-- C4 counterexample: the two cases the claim singles out as *not*
raising an unhandled division by zero do exactly that.  The RIM input
(risk-free 5, beta 1, market return 0) makes
`cost_of_equity = 5 + 1 * (0 - 5) = 0`, so `RI / (cost_of_equity/100)`
raises `ZeroDivisionError`; the Asset-Based input with shares 0 raises
it in the `nav` division.  Neither branch has any validation. -/
theorem C4_counterexample :
    computeRim ⟨50, 8, 5, 1, 0⟩ = .error .zeroDivisionError ∧
      computeAssetBased ⟨100, 40, 0⟩ = .error .zeroDivisionError := by
  constructor
  · norm_num [computeRim, cost_of_equity]
  · norm_num [computeAssetBased]

/-- C4 (amended): the DDM evaluator validates before its only division
and can never hit a zero denominator; but the DCF evaluator still
raises `ZeroDivisionError` after passing validation when the discount
rate is −100%, the RIM evaluator raises it whenever the CAPM cost of
equity is zero, and the Asset-Based evaluator raises it whenever
shares outstanding is zero — so unguarded division-by-zero paths do
escape the engine. -/
theorem C4_safety_amended (d : DcfInputs) (m : DdmInputs) (r : RimInputs) (a : AssetInputs) :
    (computeDdm m ≠ .error .zeroDivisionError) ∧
    (0 < d.os → d.tr < d.dr → (1 : ℚ) + d.dr / 100 = 0 →
      computeDcf d = .error .zeroDivisionError) ∧
    (cost_of_equity r = 0 → computeRim r = .error .zeroDivisionError) ∧
    (a.shares_outstanding = 0 → computeAssetBased a = .error .zeroDivisionError) := by
  refine ⟨?_, ?_, ?_, ?_⟩
  · rw [computeDdm]
    split <;> simp
  · intro h1 h2 h3
    rw [computeDcf, if_neg (by linarith), if_neg (by linarith), if_pos h3]
  · intro h
    rw [computeRim]
    simp [h]
  · intro h
    simp [computeAssetBased, h]

/-- C4 witness: a concrete DDM input never yields the division error,
and the degenerate RIM input hits it. -/
theorem C4_witness :
    computeDdm ⟨5, 2, 10⟩ ≠ .error .zeroDivisionError ∧
      computeRim ⟨50, 8, 5, 1, 0⟩ = .error .zeroDivisionError := by
  have h := C4_safety_amended ⟨0, 0, 0, 0, 0, 0, 0, 0, 0, 1, 0, 0, 1⟩ ⟨5, 2, 10⟩
    ⟨50, 8, 5, 1, 0⟩ ⟨100, 40, 0⟩
  exact ⟨h.1, h.2.2.1 (by norm_num [cost_of_equity])⟩

/-- C5: the DCF branch validates in order: shares outstanding ≤ 0
stops with `InvalidShares`; otherwise discount rate ≤ terminal growth
rate stops with `InvalidRateRelation`.  In either case the result is
the structured error and no numeric record. -/
theorem C5_dcf_validation (inp : DcfInputs) :
    (inp.os ≤ 0 → computeDcf inp = .error .invalidShares) ∧
    (0 < inp.os → inp.dr ≤ inp.tr → computeDcf inp = .error .invalidRateRelation) := by
  constructor
  · intro h
    rw [computeDcf, if_pos h]
  · intro h1 h2
    rw [computeDcf, if_neg (by linarith), if_pos h2]

/-- C5 witness: shares −1 fails with `InvalidShares`; shares 10 with
discount 3% ≤ terminal 5% fails with `InvalidRateRelation`. -/
theorem C5_witness :
    computeDcf ⟨0, 0, 0, 0, 0, 0, 0, 0, 0, 10, 0, 0, -1⟩ = .error .invalidShares ∧
      computeDcf ⟨0, 0, 0, 0, 0, 0, 0, 0, 5, 3, 0, 0, 10⟩ = .error .invalidRateRelation :=
  ⟨(C5_dcf_validation ⟨0, 0, 0, 0, 0, 0, 0, 0, 0, 10, 0, 0, -1⟩).1 (by norm_num),
   (C5_dcf_validation ⟨0, 0, 0, 0, 0, 0, 0, 0, 5, 3, 0, 0, 10⟩).2 (by norm_num) (by norm_num)⟩

/-- C6: every successful DCF result has upper bound = price × 1.1,
lower bound = price × 0.9 and margin-of-safety = lower × 0.7 exactly,
and whenever the price is positive the strict ordering
margin-of-safety < lower < price < upper holds. -/
theorem C6_dcf_bounds (inp : DcfInputs) (r : DcfResult)
    (h : computeDcf inp = .ok r) :
    (r.uppershareprice = r.shareprice * 1.1 ∧
     r.lowershareprice = r.shareprice * 0.9 ∧
     r.marginofsafetyprice = r.lowershareprice * 0.7) ∧
    (0 < r.shareprice →
      r.lowershareprice < r.shareprice ∧ r.shareprice < r.uppershareprice ∧
        r.marginofsafetyprice < r.lowershareprice) := by
  rw [computeDcf] at h
  split at h
  · exact absurd h (by simp)
  · split at h
    · exact absurd h (by simp)
    · split at h
      · exact absurd h (by simp)
      · simp only [Except.ok.injEq] at h
        subst h
        refine ⟨⟨rfl, rfl, rfl⟩, fun hp => ?_⟩
        norm_num at hp ⊢
        refine ⟨by nlinarith, by nlinarith, by nlinarith⟩

/-- C6 witness: the successful result at the concrete input of
`C1_counterexample` has price 3610/81 > 0 and bounds in the strict
order margin-of-safety < lower < price < upper. -/
theorem C6_witness :
    ((2527 : ℚ) / 90 < 361 / 9 ∧ (361 : ℚ) / 9 < 3610 / 81 ∧
      (3610 : ℚ) / 81 < 3971 / 81) := by
  have h := C6_dcf_bounds ⟨3, 3, 3, 0, 0, 0, 100, 0, 0, 50, 0, 0, 1⟩
    ⟨3610 / 81, 3971 / 81, 361 / 9, 2527 / 90⟩
    (by norm_num [computeDcf, shareprice, totalpresentvalue, sumofpresentvalues, PV, pvtv,
      terminalvalue, netdebt, FV, cashflow, free_cash_flows, List.range_succ])
  have h2 := h.2 (by norm_num)
  exact ⟨h2.2.2, h2.1, h2.2.1⟩

/-- C7: the DDM evaluator returns
`nextDividend / ((requiredReturn - growthRate) / 100)` whenever the
required return exceeds the growth rate — a value strictly positive
when the dividend is — and fails with `InvalidRateRelation` whenever
the required return is ≤ the growth rate. -/
theorem C7_ddm (inp : DdmInputs) :
    (inp.g < inp.r →
      computeDdm inp = .ok (inp.D1 / ((inp.r - inp.g) / 100)) ∧
        (0 < inp.D1 → 0 < inp.D1 / ((inp.r - inp.g) / 100))) ∧
    (inp.r ≤ inp.g → computeDdm inp = .error .invalidRateRelation) := by
  constructor
  · intro h
    refine ⟨by rw [computeDdm, if_neg (by linarith)], fun hD => div_pos hD (by linarith)⟩
  · intro h
    rw [computeDdm, if_pos h]

/-- C7 witness: dividend 5, growth 2%, return 10% yields
`5 / 0.08 = 62.5 > 0`; swapping the rates fails with
`InvalidRateRelation`. -/
theorem C7_witness :
    computeDdm ⟨5, 2, 10⟩ = .ok (125 / 2) ∧ (0 : ℚ) < 125 / 2 ∧
      computeDdm ⟨5, 10, 2⟩ = .error .invalidRateRelation := by
  have h1 := (C7_ddm ⟨5, 2, 10⟩).1 (by norm_num)
  have h2 := (C7_ddm ⟨5, 10, 2⟩).2 (by norm_num)
  refine ⟨?_, by norm_num, h2⟩
  rw [h1.1]
  norm_num

/-- C8: for every RIM input with nonzero CAPM cost of equity the
evaluator returns cost of equity `rf + beta * (marketReturn - rf)` and
intrinsic value
`bookValue + (netIncome - bookValue * coe/100) / (coe/100)`;
at the spec's scenario (book 50, income 8, risk-free 6.5, beta 1,
market 12) it returns cost of equity 12 and intrinsic value 200/3,
which rounds to 66.67 at two decimal places. -/
theorem C8_rim :
    (∀ inp : RimInputs, cost_of_equity inp ≠ 0 →
      computeRim inp =
        .ok ⟨cost_of_equity inp,
          inp.book_value +
            (inp.net_income - inp.book_value * (cost_of_equity inp / 100)) /
              (cost_of_equity inp / 100)⟩) ∧
    computeRim ⟨50, 8, 13 / 2, 1, 12⟩ = .ok ⟨12, 200 / 3⟩ ∧
      round2 ((200 : ℚ) / 3) = 6667 / 100 := by
  refine ⟨fun inp h => by rw [computeRim]; simp [h], ?_, ?_⟩
  · norm_num [computeRim, cost_of_equity]
  · rw [round2]
    norm_num

/-- C8 witness: the general formula applied at the spec's scenario
input. -/
theorem C8_witness :
    computeRim ⟨50, 8, 13 / 2, 1, 12⟩ =
      .ok ⟨cost_of_equity ⟨50, 8, 13 / 2, 1, 12⟩,
        50 + (8 - 50 * (cost_of_equity ⟨50, 8, 13 / 2, 1, 12⟩ / 100)) /
          (cost_of_equity ⟨50, 8, 13 / 2, 1, 12⟩ / 100)⟩ :=
  C8_rim.1 ⟨50, 8, 13 / 2, 1, 12⟩ (by norm_num [cost_of_equity])

/-- C9: the Relative evaluator never fails and returns
`industryPE * EPS`; with an industry P/E of 1 it returns the EPS
unchanged. -/
theorem C9_relative :
    (∀ inp : RelativeInputs, computeRelative inp = .ok (inp.industry_pe * inp.eps)) ∧
      ∀ x : ℚ, computeRelative ⟨1, x⟩ = .ok x := by
  refine ⟨fun inp => rfl, fun x => ?_⟩
  simp [computeRelative]

/-- C10: for every RIM input with nonzero cost of equity the book
value cancels: the intrinsic value is exactly
`netIncome / (costOfEquity / 100)`, and replacing the book value by
any other value leaves the whole result unchanged. -/
theorem C10_rim_bookvalue_cancels (inp : RimInputs)
    (h : cost_of_equity inp ≠ 0) :
    computeRim inp =
      .ok ⟨cost_of_equity inp, inp.net_income / (cost_of_equity inp / 100)⟩ ∧
    ∀ bv : ℚ,
      computeRim ⟨bv, inp.net_income, inp.rf, inp.beta, inp.market_return⟩ =
        computeRim inp := by
  have key : ∀ bv : ℚ,
      computeRim ⟨bv, inp.net_income, inp.rf, inp.beta, inp.market_return⟩ =
        .ok ⟨cost_of_equity inp, inp.net_income / (cost_of_equity inp / 100)⟩ := by
    intro bv
    have hcoe : cost_of_equity ⟨bv, inp.net_income, inp.rf, inp.beta, inp.market_return⟩ =
        cost_of_equity inp := rfl
    rw [computeRim]
    simp only [hcoe, if_neg h]
    refine congrArg Except.ok ?_
    refine congrArg (RimResult.mk (cost_of_equity inp)) ?_
    field_simp
  have hself : computeRim inp =
      .ok ⟨cost_of_equity inp, inp.net_income / (cost_of_equity inp / 100)⟩ := by
    have := key inp.book_value
    simpa using this
  exact ⟨hself, fun bv => (key bv).trans hself.symm⟩

/-- C10 witness: changing the book value from 50 to 999 in the spec's
RIM scenario leaves the evaluation result unchanged. -/
theorem C10_witness :
    computeRim ⟨999, 8, 13 / 2, 1, 12⟩ = computeRim ⟨50, 8, 13 / 2, 1, 12⟩ :=
  (C10_rim_bookvalue_cancels ⟨50, 8, 13 / 2, 1, 12⟩ (by norm_num [cost_of_equity])).2 999
